import Mathlib

/-!
Verification of the scaffolding orchestration in `pkg/scaffold/api.go`
(kubebuilder API/controller scaffolding).

The Go code is shallowly embedded as pure Lean functions.  External
collaborators (config store save, template execution, universe building,
in-place updaters, the reporting sink) are fallible calls whose outcomes
are supplied by an `Env` of booleans; every invocation of an external
side-effecting step is recorded in an event trace, so temporal claims
(ordering, "nothing ran before the error") become statements about the
trace.  Machine state (the resource descriptor, pointed to by
`api.Resource` and mutable, and the in-memory project configuration) is
threaded explicitly.
-/

/-- The resource descriptor (`pkg/scaffold/resource.Resource`): identity
of the API type being scaffolded plus the example-reconcile-body toggle,
the one field `api.go` mutates. -/
structure Resource where
  group : String
  version : String
  kind : String
  namespaced : Bool
  createExampleReconcileBody : Bool
deriving DecidableEq, Repr

/-- A registered resource identity (Group/Version/Kind key). -/
structure GVK where
  group : String
  version : String
  kind : String
deriving DecidableEq, Repr

/-- The identity key of a resource descriptor. -/
def gvkOf (r : Resource) : GVK :=
  ⟨r.group, r.version, r.kind⟩

/-- Modelled from the spec: the persisted Project Configuration
(`internal/config`, not under src/): a scaffolding version tag (the tags
for v1 and v2 projects are modelled as the strings "1" and "2"), the
MultiGroup layout flag, and the registry of previously added resource
identities. -/
structure Config where
  version : String
  multiGroup : Bool
  resources : List GVK
deriving DecidableEq, Repr

/-- Modelled from the spec: membership query of the registry
(`config.HasResource`, not under src/): exact Group/Version/Kind match. -/
def Config.hasResource (c : Config) (g : GVK) : Bool :=
  c.resources.contains g

/-- Modelled from the spec: `config.AddResource` (not under src/) adds the
identity to the registry if absent and reports whether it was added. -/
def Config.addResource (c : Config) (g : GVK) : Config × Bool :=
  if c.hasResource g then (c, false)
  else ({ c with resources := c.resources ++ [g] }, true)

/-- Modelled from the spec: `config.ResourceGroups` (not under src/), the
groups of the registered resources. -/
def Config.resourceGroups (c : Config) : List String :=
  c.resources.map GVK.group

/-- Modelled from the spec: `config.IsV1` (not under src/), true exactly
for the v1 version tag. -/
def Config.isV1 (c : Config) : Bool :=
  c.version == "1"

/-- Modelled from the spec: `config.IsV2` (not under src/), true exactly
for the v2 version tag. -/
def Config.isV2 (c : Config) : Bool :=
  c.version == "2"

/-- The `API` orchestration object of `api.go` (the `Plugins` list is an
opaque pass-through and is omitted; the config is modelled as already
resolved, `setDefaults` being the identity then). -/
structure API where
  resource : Resource
  config : Config
  doResource : Bool
  doController : Bool
  force : Bool
deriving DecidableEq, Repr

/-- Outcomes of the external collaborator calls made by one run: each
boolean says whether that call site succeeds.  `resourceValidateOk` is
the external resource-identity validation used by `Validate()`. -/
structure Env where
  resourceValidateOk : Bool
  saveOk : Bool
  buildUniverseV1Res : Bool
  executeV1Res : Bool
  buildUniverseV1Ctrl : Bool
  executeV1Ctrl : Bool
  buildUniverseV2Api : Bool
  executeV2Api : Bool
  buildUniverseV2Kust : Bool
  executeV2Kust : Bool
  kustUpdateOk : Bool
  buildUniverseV2Ctrl : Bool
  executeV2Ctrl : Bool
  suiteUpdateOk : Bool
  mainUpdateOk : Bool
deriving DecidableEq, Repr

/-- One file-generation task handed to `Scaffold.Execute`: the template
identity, the resource descriptor passed to it (if any), and an explicit
path override (only the v2 `Types` task sets one in `api.go`). -/
structure GenFile where
  template : String
  res : Option Resource := none
  path : Option String := none
deriving DecidableEq, Repr

/-- Observable external steps of a run, in invocation order.  An
`execute` event is an invocation of the Scaffold Orchestrator on a task
list; the three update events are In-place Updater invocations;
`saveConfig` records a successful persist of the configuration. -/
inductive Event where
  | printPath (path : String)
  | saveConfig
  | execute (files : List GenFile)
  | kustomizationUpdate
  | suiteTestUpdate
  | mainUpdate (wireResource : Bool) (wireController : Bool)
deriving DecidableEq, Repr

/-- Result of a phase: error (if any), the API state after it, and the
events it produced. -/
structure Step where
  err : Option String
  api : API
  events : List Event

/-- Result of a whole `Scaffold()`/`Validate()` run. -/
structure Outcome where
  err : Option String
  api : API
  events : List Event

/-- `strings.EqualFold` of the Go standard library, modelled as
character-wise case-insensitive equality under ASCII lowercasing (Go
folds Unicode runes; the identifiers handled here are ASCII). -/
def stringsEqualFold (a b : String) : Bool :=
  a.data.map Char.toLower == b.data.map Char.toLower

/-- `strings.ToLower` of the Go standard library, modelled as
character-wise ASCII lowercasing over the character list. -/
def goToLower (s : String) : String :=
  ⟨s.data.map Char.toLower⟩

/-- `filepath.Join` of the Go standard library restricted to the inputs
occurring here: non-empty components joined by the separator (Go also
runs `Clean`, the identity on slash-free non-empty components). -/
def goJoin : List String → String
  | [] => ""
  | [s] => s
  | s :: rest => s ++ "/" ++ goJoin rest

/-- Join after dropping empty components, as Go `filepath.Join` does. -/
def goJoinNE (parts : List String) : String :=
  goJoin (parts.filter (fun s => !(s == "")))

/-- Error message for `Validate()` on a duplicate resource without Force. -/
def resourceExistsErr : String := "API resource already exists"

/-- Error message of the external resource-identity validation. -/
def resourceValidateErr : String := "resource validation failed"

/-- Error message for an unknown configuration version (quotes elided). -/
def unknownVersionErr (v : String) : String :=
  "unknown project version " ++ v

/-- Error of `validateResourceGroup` on a duplicate GVK (quotes elided). -/
def alreadyExistsErr (r : Resource) : String :=
  "group " ++ r.group ++ ", version " ++ r.version ++ " and kind " ++
    r.kind ++ " already exists"

/-- Error of `validateResourceGroup` on a group conflict (quotes elided). -/
def groupConflictErr (g : String) : String :=
  "group " ++ g ++ " is not same as existing group." ++
    " Multiple groups are not enabled in this project." ++
    " To enable, use the multigroup command"

/-- Error wrapping a universe-build failure in a resource phase. -/
def buildApiErr : String := "error building API scaffold"

/-- Error wrapping an Execute failure in a resource phase. -/
def scaffoldApisErr : String := "error scaffolding APIs"

/-- Error wrapping a universe-build failure in a controller phase. -/
def buildCtrlErr : String := "error building controller scaffold"

/-- Error wrapping an Execute failure in a controller phase. -/
def scaffoldCtrlErr : String := "error scaffolding controller"

/-- Error wrapping a universe-build failure in the kustomization phase. -/
def buildKustErr : String := "error building kustomization scaffold"

/-- Error wrapping an Execute failure in the kustomization phase. -/
def scaffoldKustErr : String := "error scaffolding kustomization"

/-- Error wrapping a kustomization in-place update failure. -/
def kustUpdateErr : String := "error updating kustomization.yaml"

/-- Error wrapping a configuration Save failure. -/
def saveErr : String :=
  "error updating project file with resource information"

/-- Error wrapping a suite-test in-place update failure. -/
def suiteUpdateErr : String :=
  "error updating suite_test.go under controllers pkg"

/-- Error wrapping an entry-point in-place update failure. -/
def mainUpdateErr : String := "error updating main.go"

/-- `isGroupAllowed` of `api.go`: with MultiGroup anything goes;
otherwise every previously registered group must EqualFold the new
resource's group. -/
def isGroupAllowed (a : API) (r : Resource) : Bool :=
  if a.config.multiGroup then true
  else a.config.resourceGroups.all (fun g => stringsEqualFold r.group g)

/-- `validateResourceGroup` of `api.go`: duplicate GVK without Force is
an error; then the group must be allowed. -/
def validateResourceGroup (a : API) (r : Resource) : Option String :=
  if a.config.hasResource (gvkOf a.resource) && !a.force then
    some (alreadyExistsErr r)
  else if !(isGroupAllowed a r) then some (groupConflictErr r.group)
  else none

/-- `Validate()` of `api.go`: external resource-identity validation, then
the duplicate-registration check gated on Force. -/
def validate (a : API) (env : Env) : Option String :=
  if !env.resourceValidateOk then some resourceValidateErr
  else if a.config.hasResource (gvkOf a.resource) && !a.force then
    some resourceExistsErr
  else none

/-- The printed v1 types file path. -/
def v1TypesPath (r : Resource) : String :=
  goJoinNE ["pkg", "apis", r.group, r.version, goToLower r.kind ++ "_types.go"]

/-- The printed v1 types test file path. -/
def v1TypesTestPath (r : Resource) : String :=
  goJoinNE ["pkg", "apis", r.group, r.version,
    goToLower r.kind ++ "_types_test.go"]

/-- The printed v1 controller file path. -/
def v1CtrlPath (r : Resource) : String :=
  goJoinNE ["pkg", "controller", goToLower r.kind,
    goToLower r.kind ++ "_controller.go"]

/-- The printed v1 controller test file path. -/
def v1CtrlTestPath (r : Resource) : String :=
  goJoinNE ["pkg", "controller", goToLower r.kind,
    goToLower r.kind ++ "_controller_test.go"]

/-- The v2 types file path computed in `scaffoldV2` (`path` variable):
multi-group and single-group layouts. -/
def typesPathV2 (mg : Bool) (r : Resource) : String :=
  if mg then goJoinNE ["apis", r.group, r.version, goToLower r.kind ++ "_types.go"]
  else goJoinNE ["api", r.version, goToLower r.kind ++ "_types.go"]

/-- The v2 controller path printed in `scaffoldV2`; in the multi-group
case Go builds the `<group>/<kind>_controller.go` component with Sprintf
before joining. -/
def controllerPathV2 (mg : Bool) (r : Resource) : String :=
  if mg then
    goJoinNE ["controllers", r.group ++ "/" ++ goToLower r.kind ++ "_controller.go"]
  else goJoinNE ["controllers", goToLower r.kind ++ "_controller.go"]

/-- The v1 resource-phase task list handed to `Execute`. -/
def v1ResourceFiles (r : Resource) : List GenFile :=
  [⟨"crdv1.Register", some r, none⟩,
   ⟨"crdv1.Types", some r, none⟩,
   ⟨"crdv1.VersionSuiteTest", some r, none⟩,
   ⟨"crdv1.TypesTest", some r, none⟩,
   ⟨"crdv1.Doc", some r, none⟩,
   ⟨"crdv1.Group", some r, none⟩,
   ⟨"crdv1.AddToScheme", some r, none⟩,
   ⟨"crdv1.CRDSample", some r, none⟩]

/-- The v1 controller-phase task list handed to `Execute`. -/
def v1ControllerFiles (r : Resource) : List GenFile :=
  [⟨"controller.Controller", some r, none⟩,
   ⟨"controller.AddController", some r, none⟩,
   ⟨"controller.Test", some r, none⟩,
   ⟨"controller.SuiteTest", some r, none⟩]

/-- The v2 resource-phase task list handed to `Execute`; the `Types`
task carries the explicitly computed path. -/
def v2ApiFiles (path : String) (r : Resource) : List GenFile :=
  [⟨"scaffoldv2.Types", some r, some path⟩,
   ⟨"scaffoldv2.Group", some r, none⟩,
   ⟨"scaffoldv2.CRDSample", some r, none⟩,
   ⟨"scaffoldv2.CRDEditorRole", some r, none⟩,
   ⟨"scaffoldv2.CRDViewerRole", some r, none⟩,
   ⟨"crdv2.EnableWebhookPatch", some r, none⟩,
   ⟨"crdv2.EnableCAInjectionPatch", some r, none⟩]

/-- The v2 kustomization task list handed to `Execute`. -/
def v2KustFiles (r : Resource) : List GenFile :=
  [⟨"crdv2.Kustomization", some r, none⟩,
   ⟨"crdv2.KustomizeConfig", none, none⟩]

/-- The v2 controller-phase task list handed to `Execute`. -/
def v2ControllerFiles (r : Resource) : List GenFile :=
  [⟨"controllerv2.SuiteTest", some r, none⟩,
   ⟨"controllerv2.Controller", some r, none⟩]

/-- The v1 resource phase (`scaffoldV1`, `if api.DoResource` branch):
prints the two paths, builds a universe, executes the resource tasks;
the `else` branch clears `CreateExampleReconcileBody`. -/
def resourcePhaseV1 (a : API) (env : Env) : Step :=
  let r := a.resource
  if a.doResource then
    let evs := [Event.printPath (v1TypesPath r),
                Event.printPath (v1TypesTestPath r)]
    if !env.buildUniverseV1Res then ⟨some buildApiErr, a, evs⟩
    else
      let evs := evs ++ [Event.execute (v1ResourceFiles r)]
      if !env.executeV1Res then ⟨some scaffoldApisErr, a, evs⟩
      else ⟨none, a, evs⟩
  else
    ⟨none, { a with resource := { r with createExampleReconcileBody := false } }, []⟩

/-- The v1 controller phase (`scaffoldV1`, `if api.DoController`):
prints the two paths, builds a universe, executes the controller tasks. -/
def controllerPhaseV1 (a : API) (env : Env) : Step :=
  let r := a.resource
  if a.doController then
    let evs := [Event.printPath (v1CtrlPath r),
                Event.printPath (v1CtrlTestPath r)]
    if !env.buildUniverseV1Ctrl then ⟨some buildCtrlErr, a, evs⟩
    else
      let evs := evs ++ [Event.execute (v1ControllerFiles r)]
      if !env.executeV1Ctrl then ⟨some scaffoldCtrlErr, a, evs⟩
      else ⟨none, a, evs⟩
  else ⟨none, a, []⟩

/-- `scaffoldV1` of `api.go`: resource phase then controller phase; no
configuration step and no entry-point update. -/
def scaffoldV1 (a : API) (env : Env) : Outcome :=
  let s1 := resourcePhaseV1 a env
  match s1.err with
  | some e => ⟨some e, s1.api, s1.events⟩
  | none =>
    let s2 := controllerPhaseV1 s1.api env
    ⟨s2.err, s2.api, s1.events ++ s2.events⟩

/-- The v2 file-generation part of the resource phase, after the
registry update and save: print the types path, build a universe,
execute the API tasks, build another universe, execute the
kustomization tasks, run the kustomization in-place update. -/
def apiFilesPhase (a : API) (env : Env) (r : Resource) : Step :=
  let path := typesPathV2 a.config.multiGroup r
  let evs := [Event.printPath path]
  if !env.buildUniverseV2Api then ⟨some buildApiErr, a, evs⟩
  else
    let evs := evs ++ [Event.execute (v2ApiFiles path r)]
    if !env.executeV2Api then ⟨some scaffoldApisErr, a, evs⟩
    else if !env.buildUniverseV2Kust then ⟨some buildKustErr, a, evs⟩
    else
      let evs := evs ++ [Event.execute (v2KustFiles r)]
      if !env.executeV2Kust then ⟨some scaffoldKustErr, a, evs⟩
      else
        let evs := evs ++ [Event.kustomizationUpdate]
        if !env.kustUpdateOk then ⟨some kustUpdateErr, a, evs⟩
        else ⟨none, a, evs⟩

/-- The v2 resource phase (`scaffoldV2`, `if api.DoResource` branch):
group validation, registry add, save if newly added, then the file
generation; the `else` branch clears `CreateExampleReconcileBody`. -/
def resourcePhaseV2 (a : API) (env : Env) : Step :=
  let r := a.resource
  if a.doResource then
    match validateResourceGroup a r with
    | some e => ⟨some e, a, []⟩
    | none =>
      let p := a.config.addResource (gvkOf r)
      let a2 := { a with config := p.1 }
      if p.2 && !env.saveOk then ⟨some saveErr, a2, []⟩
      else
        let s := apiFilesPhase a2 env r
        ⟨s.err, s.api, (if p.2 then [Event.saveConfig] else []) ++ s.events⟩
  else
    ⟨none, { a with resource := { r with createExampleReconcileBody := false } }, []⟩

/-- The v2 controller phase (`scaffoldV2`, `if api.DoController`):
prints the controller path, builds a universe, executes the controller
tasks, then updates the suite-test file in place. -/
def controllerPhaseV2 (a : API) (env : Env) : Step :=
  let r := a.resource
  if a.doController then
    let evs := [Event.printPath (controllerPathV2 a.config.multiGroup r)]
    if !env.buildUniverseV2Ctrl then ⟨some buildCtrlErr, a, evs⟩
    else
      let evs := evs ++ [Event.execute (v2ControllerFiles r)]
      if !env.executeV2Ctrl then ⟨some scaffoldCtrlErr, a, evs⟩
      else
        let evs := evs ++ [Event.suiteTestUpdate]
        if !env.suiteUpdateOk then ⟨some suiteUpdateErr, a, evs⟩
        else ⟨none, a, evs⟩
  else ⟨none, a, []⟩

/-- `scaffoldV2` of `api.go`: resource phase, controller phase, then the
entry-point in-place update wiring `DoResource`/`DoController`. -/
def scaffoldV2 (a : API) (env : Env) : Outcome :=
  let s1 := resourcePhaseV2 a env
  match s1.err with
  | some e => ⟨some e, s1.api, s1.events⟩
  | none =>
    let s2 := controllerPhaseV2 s1.api env
    match s2.err with
    | some e => ⟨some e, s2.api, s1.events ++ s2.events⟩
    | none =>
      let evs := s1.events ++ s2.events ++
        [Event.mainUpdate a.doResource a.doController]
      if !env.mainUpdateOk then ⟨some mainUpdateErr, s2.api, evs⟩
      else ⟨none, s2.api, evs⟩

/-- `Scaffold()` of `api.go`: dispatch on the configuration version. -/
def scaffold (a : API) (env : Env) : Outcome :=
  if a.config.isV1 then scaffoldV1 a env
  else if a.config.isV2 then scaffoldV2 a env
  else ⟨some (unknownVersionErr a.config.version), a, []⟩

/-! ### Helper lemmas -/

/-- The v2 controller phase never changes the API state. -/
lemma controllerPhaseV2_api (a : API) (env : Env) :
    (controllerPhaseV2 a env).api = a := by
  cases hd : a.doController <;>
    cases h1 : env.buildUniverseV2Ctrl <;>
      cases h2 : env.executeV2Ctrl <;>
        cases h3 : env.suiteUpdateOk <;>
          simp [controllerPhaseV2, hd, h1, h2, h3]

/-- The v2 api-files phase never changes the API state. -/
lemma apiFilesPhase_api (a : API) (env : Env) (r : Resource) :
    (apiFilesPhase a env r).api = a := by
  cases h1 : env.buildUniverseV2Api <;>
    cases h2 : env.executeV2Api <;>
      cases h3 : env.buildUniverseV2Kust <;>
        cases h4 : env.executeV2Kust <;>
          cases h5 : env.kustUpdateOk <;>
            simp [apiFilesPhase, h1, h2, h3, h4, h5]

/-- The v1 controller phase never changes the API state. -/
lemma controllerPhaseV1_api (a : API) (env : Env) :
    (controllerPhaseV1 a env).api = a := by
  cases hd : a.doController <;>
    cases h1 : env.buildUniverseV1Ctrl <;>
      cases h2 : env.executeV1Ctrl <;>
        simp [controllerPhaseV1, hd, h1, h2]

/-- Adding a resource identity makes the registry contain it. -/
lemma addResource_hasResource (c : Config) (g : GVK) :
    ((c.addResource g).1).hasResource g = true := by
  unfold Config.addResource
  by_cases h : c.hasResource g = true
  · simp [h]
  · simp only [h, Bool.false_eq_true, if_false]
    simp [Config.hasResource]

/-- Adding an absent resource identity reports that it was added. -/
lemma addResource_added (c : Config) (g : GVK) (h : c.hasResource g = false) :
    (c.addResource g).2 = true := by
  unfold Config.addResource
  simp [h]

/-- Whatever happens after the v2 resource phase only appends events. -/
lemma scaffoldV2_events_prefix (a : API) (env : Env) :
    ∃ tail, (scaffoldV2 a env).events = (resourcePhaseV2 a env).events ++ tail := by
  unfold scaffoldV2
  cases h1 : (resourcePhaseV2 a env).err
  · cases h2 : (controllerPhaseV2 (resourcePhaseV2 a env).api env).err
    · cases hm : env.mainUpdateOk <;>
        refine ⟨(controllerPhaseV2 (resourcePhaseV2 a env).api env).events ++
          [Event.mainUpdate a.doResource a.doController], ?_⟩ <;>
          simp [h1, h2, hm, List.append_assoc]
    · exact ⟨(controllerPhaseV2 (resourcePhaseV2 a env).api env).events,
        by simp [h1, h2]⟩
  · exact ⟨[], by simp [h1]⟩

/-- The API state after a v2 run is the state left by its resource
phase (the later phases never change it). -/
lemma scaffoldV2_api (a : API) (env : Env) :
    (scaffoldV2 a env).api = (resourcePhaseV2 a env).api := by
  unfold scaffoldV2
  cases h1 : (resourcePhaseV2 a env).err
  · cases h2 : (controllerPhaseV2 (resourcePhaseV2 a env).api env).err
    · cases hm : env.mainUpdateOk <;>
        simp [h1, h2, hm, controllerPhaseV2_api]
    · simp [h1, h2, controllerPhaseV2_api]
  · simp [h1]

/-! ### The claims -/

/-- C4: `Scaffold()` dispatches exactly on the configuration version:
tag "1" runs the v1 strategy, tag "2" the v2 strategy, and any other
version fails with the unknown-version error having performed no
generation step (empty trace). -/
theorem scaffold_version_dispatch (a : API) (env : Env) :
    (a.config.version = "1" → scaffold a env = scaffoldV1 a env) ∧
    (a.config.version = "2" → scaffold a env = scaffoldV2 a env) ∧
    (a.config.version ≠ "1" → a.config.version ≠ "2" →
      (scaffold a env).err = some (unknownVersionErr a.config.version) ∧
      (scaffold a env).events = []) := by
  refine ⟨?_, ?_, ?_⟩
  · intro h; simp [scaffold, Config.isV1, Config.isV2, h]
  · intro h; simp [scaffold, Config.isV1, Config.isV2, h]
  · intro h1 h2
    simp [scaffold, Config.isV1, Config.isV2, h1, h2]

/-- An environment in which every external call succeeds. -/
def allOkEnv : Env :=
  ⟨true, true, true, true, true, true, true, true, true, true, true, true,
   true, true, true⟩

/-- A sample resource descriptor. -/
def fooRes : Resource := ⟨"apps", "v1", "Foo", true, true⟩

/-- A v1-config API request. -/
def apiTag1 : API := ⟨fooRes, ⟨"1", false, []⟩, true, true, false⟩

/-- A v2-config API request. -/
def apiTag2 : API := ⟨fooRes, ⟨"2", false, []⟩, true, true, false⟩

/-- An API request with an unsupported config version tag. -/
def apiTag3 : API := ⟨fooRes, ⟨"3", false, []⟩, true, true, false⟩

/-- Witness for C4 at the version tags "1", "2" and "3". -/
theorem scaffold_version_dispatch_witness :
    scaffold apiTag1 allOkEnv = scaffoldV1 apiTag1 allOkEnv ∧
    scaffold apiTag2 allOkEnv = scaffoldV2 apiTag2 allOkEnv ∧
    ((scaffold apiTag3 allOkEnv).err =
        some (unknownVersionErr apiTag3.config.version) ∧
      (scaffold apiTag3 allOkEnv).events = []) :=
  ⟨(scaffold_version_dispatch apiTag1 allOkEnv).1 rfl,
   (scaffold_version_dispatch apiTag2 allOkEnv).2.1 rfl,
   (scaffold_version_dispatch apiTag3 allOkEnv).2.2 (by decide) (by decide)⟩

/-- C3: `Validate()` returns the resource-exists error exactly on an
already-registered resource without Force; with Force that error never
occurs; and an unregistered resource validates whenever the external
resource-identity validation succeeds. -/
theorem validate_exists_unless_force (a : API) (env : Env) :
    (env.resourceValidateOk = true →
      a.config.hasResource (gvkOf a.resource) = true → a.force = false →
      validate a env = some resourceExistsErr) ∧
    (a.force = true → validate a env ≠ some resourceExistsErr) ∧
    (a.config.hasResource (gvkOf a.resource) = false →
      env.resourceValidateOk = true → validate a env = none) := by
  refine ⟨?_, ?_, ?_⟩
  · intro hv hh hf; simp [validate, hv, hh, hf]
  · intro hf
    cases hv : env.resourceValidateOk
    · simp [validate, hv, resourceValidateErr, resourceExistsErr]
    · simp [validate, hv, hf]
  · intro hh hv; simp [validate, hv, hh]

/-- An API request whose resource is already registered, without Force. -/
def apiDup : API :=
  ⟨fooRes, ⟨"2", false, [⟨"apps", "v1", "Foo"⟩]⟩, true, true, false⟩

/-- The same request with Force set. -/
def apiDupForce : API :=
  ⟨fooRes, ⟨"2", false, [⟨"apps", "v1", "Foo"⟩]⟩, true, true, true⟩

/-- Witness for C3: registered-without-Force errors, Force suppresses
the error, and a fresh resource validates. -/
theorem validate_exists_unless_force_witness :
    validate apiDup allOkEnv = some resourceExistsErr ∧
    validate apiDupForce allOkEnv ≠ some resourceExistsErr ∧
    validate apiTag2 allOkEnv = none :=
  ⟨(validate_exists_unless_force apiDup allOkEnv).1 (by decide) (by decide)
      (by decide),
   (validate_exists_unless_force apiDupForce allOkEnv).2.1 (by decide),
   (validate_exists_unless_force apiTag2 allOkEnv).2.2 (by decide) (by decide)⟩

/-- C8: the v1 strategy neither mutates the Project Configuration nor
persists it: the configuration after any `scaffoldV1` run equals the
one before, and no save event ever occurs in a v1 trace. -/
theorem scaffoldV1_config_frame (a : API) (env : Env) :
    (scaffoldV1 a env).api.config = a.config ∧
    Event.saveConfig ∉ (scaffoldV1 a env).events := by
  cases hr : a.doResource <;>
    cases hc : a.doController <;>
      cases h1 : env.buildUniverseV1Res <;>
        cases h2 : env.executeV1Res <;>
          cases h3 : env.buildUniverseV1Ctrl <;>
            cases h4 : env.executeV1Ctrl <;>
              simp [scaffoldV1, resourcePhaseV1, controllerPhaseV1,
                hr, hc, h1, h2, h3, h4]

/-- C1: in a v2 single-group project with a registered group differing
(even up to case) from the new resource's group, a `Scaffold()` run
requesting the resource fails with the group-conflict error before any
file generation (empty trace); with MultiGroup the group check accepts
any group; and an empty registry passes the check even single-group. -/
theorem group_conflict_before_generation (a : API) (env : Env) (g : String)
    (hv : a.config.version = "2")
    (hmg : a.config.multiGroup = false)
    (hdo : a.doResource = true)
    (hg : g ∈ a.config.resourceGroups)
    (hne : stringsEqualFold a.resource.group g = false)
    (hhas : a.config.hasResource (gvkOf a.resource) = false) :
    ((scaffold a env).err = some (groupConflictErr a.resource.group) ∧
     (scaffold a env).events = []) ∧
    (∀ a2 : API, ∀ r : Resource, a2.config.multiGroup = true →
      isGroupAllowed a2 r = true) ∧
    (∀ a2 : API, ∀ r : Resource, a2.config.resourceGroups = [] →
      isGroupAllowed a2 r = true) := by
  refine ⟨?_, ?_, ?_⟩
  · have hga : isGroupAllowed a a.resource = false := by
      unfold isGroupAllowed
      rw [hmg]
      simp only [Bool.false_eq_true, if_false]
      rw [List.all_eq_false]
      exact ⟨g, hg, by simp [hne]⟩
    have hval : validateResourceGroup a a.resource =
        some (groupConflictErr a.resource.group) := by
      simp [validateResourceGroup, hhas, hga]
    have hs : scaffold a env = scaffoldV2 a env := by
      simp [scaffold, Config.isV1, Config.isV2, hv]
    have hrp : resourcePhaseV2 a env =
        ⟨some (groupConflictErr a.resource.group), a, []⟩ := by
      simp [resourcePhaseV2, hdo, hval]
    rw [hs]
    unfold scaffoldV2
    rw [hrp]
    exact ⟨rfl, rfl⟩
  · intro a2 r hmg2; simp [isGroupAllowed, hmg2]
  · intro a2 r hempty; simp [isGroupAllowed, hempty]

/-- A single-group v2 request for group "batch" against a registry
holding group "apps". -/
def apiBatchVsApps : API :=
  ⟨⟨"batch", "v1", "Job", true, true⟩,
   ⟨"2", false, [⟨"apps", "v1", "Foo"⟩]⟩, true, false, false⟩

/-- The same request in a MultiGroup project. -/
def apiBatchVsAppsMG : API :=
  ⟨⟨"batch", "v1", "Job", true, true⟩,
   ⟨"2", true, [⟨"apps", "v1", "Foo"⟩]⟩, true, false, false⟩

/-- Witness for C1 at the spec's own example: registered group "apps",
requested group "batch". -/
theorem group_conflict_before_generation_witness :
    ((scaffold apiBatchVsApps allOkEnv).err =
        some (groupConflictErr apiBatchVsApps.resource.group) ∧
      (scaffold apiBatchVsApps allOkEnv).events = []) ∧
    isGroupAllowed apiBatchVsAppsMG apiBatchVsAppsMG.resource = true ∧
    isGroupAllowed apiTag2 apiTag2.resource = true := by
  have h := group_conflict_before_generation apiBatchVsApps allOkEnv "apps"
    (by decide) (by decide) (by decide) (by decide) (by decide) (by decide)
  exact ⟨h.1, h.2.1 apiBatchVsAppsMG apiBatchVsAppsMG.resource (by decide),
    h.2.2 apiTag2 apiTag2.resource (by decide)⟩

/-- C9: the single-group conflict check compares groups
case-insensitively (`strings.EqualFold`): when every registered group
is fold-equal to the new resource's group, the group is allowed, and an
unregistered resource passes `validateResourceGroup` entirely. -/
theorem group_check_case_insensitive (a : API)
    (hmg : a.config.multiGroup = false)
    (hall : ∀ g0 ∈ a.config.resourceGroups,
      stringsEqualFold a.resource.group g0 = true) :
    isGroupAllowed a a.resource = true ∧
    (a.config.hasResource (gvkOf a.resource) = false →
      validateResourceGroup a a.resource = none) := by
  have h1 : isGroupAllowed a a.resource = true := by
    unfold isGroupAllowed
    rw [hmg]
    simp only [Bool.false_eq_true, if_false]
    rw [List.all_eq_true]
    intro g0 hg0
    simpa using hall g0 hg0
  refine ⟨h1, fun hhas => ?_⟩
  simp [validateResourceGroup, hhas, h1]

/-- A single-group v2 request whose group "apps" differs from the
registered group "Apps" only in letter case. -/
def apiCaseOnly : API :=
  ⟨⟨"apps", "v1", "Job", true, true⟩,
   ⟨"2", false, [⟨"Apps", "v1", "Foo"⟩]⟩, true, false, false⟩

/-- Witness for C9: group "apps" vs registered "Apps" is accepted. -/
theorem group_check_case_insensitive_witness :
    isGroupAllowed apiCaseOnly apiCaseOnly.resource = true ∧
    validateResourceGroup apiCaseOnly apiCaseOnly.resource = none := by
  have h := group_check_case_insensitive apiCaseOnly (by decide) (by decide)
  exact ⟨h.1, h.2 (by decide)⟩

/-- C2: in a v2 run requesting a not-yet-registered resource (and whose
group is allowed), the resource is added to the configuration and the
save is the very first event of the trace — strictly before any
generation task; and if the save fails the run aborts with the save
error having executed nothing (empty trace). -/
theorem save_before_generation (a : API) (env : Env)
    (hv : a.config.version = "2")
    (hdo : a.doResource = true)
    (hhas : a.config.hasResource (gvkOf a.resource) = false)
    (hga : isGroupAllowed a a.resource = true) :
    (env.saveOk = true →
      (∃ rest, (scaffold a env).events = Event.saveConfig :: rest) ∧
      (scaffold a env).api.config.hasResource (gvkOf a.resource) = true) ∧
    (env.saveOk = false →
      (scaffold a env).err = some saveErr ∧
      (scaffold a env).events = []) := by
  have hval : validateResourceGroup a a.resource = none := by
    simp [validateResourceGroup, hhas, hga]
  have hadd : (a.config.addResource (gvkOf a.resource)).2 = true :=
    addResource_added _ _ hhas
  have hs : scaffold a env = scaffoldV2 a env := by
    simp [scaffold, Config.isV1, Config.isV2, hv]
  constructor
  · intro hsave
    have hrp : resourcePhaseV2 a env =
        ⟨(apiFilesPhase { a with config := (a.config.addResource (gvkOf a.resource)).1 }
            env a.resource).err,
         (apiFilesPhase { a with config := (a.config.addResource (gvkOf a.resource)).1 }
            env a.resource).api,
         Event.saveConfig ::
          (apiFilesPhase { a with config := (a.config.addResource (gvkOf a.resource)).1 }
            env a.resource).events⟩ := by
      simp [resourcePhaseV2, hdo, hval, hadd, hsave]
    constructor
    · obtain ⟨tail, htail⟩ := scaffoldV2_events_prefix a env
      rw [hs, htail, hrp]
      exact ⟨_, rfl⟩
    · rw [hs, scaffoldV2_api, hrp]
      simpa [apiFilesPhase_api] using addResource_hasResource a.config (gvkOf a.resource)
  · intro hsave
    have hrp : resourcePhaseV2 a env =
        ⟨some saveErr,
         { a with config := (a.config.addResource (gvkOf a.resource)).1 }, []⟩ := by
      simp [resourcePhaseV2, hdo, hval, hadd, hsave]
    rw [hs]
    unfold scaffoldV2
    rw [hrp]
    exact ⟨rfl, rfl⟩

/-- A failing-save environment. -/
def saveFailEnv : Env :=
  { allOkEnv with saveOk := false }

/-- Witness for C2: a fresh single-group v2 resource request, once with
the save succeeding and once with it failing. -/
theorem save_before_generation_witness :
    ((∃ rest, (scaffold apiTag2 allOkEnv).events = Event.saveConfig :: rest) ∧
      (scaffold apiTag2 allOkEnv).api.config.hasResource
        (gvkOf apiTag2.resource) = true) ∧
    ((scaffold apiTag2 saveFailEnv).err = some saveErr ∧
      (scaffold apiTag2 saveFailEnv).events = []) :=
  ⟨(save_before_generation apiTag2 allOkEnv (by decide) (by decide) (by decide)
      (by decide)).1 (by decide),
   (save_before_generation apiTag2 saveFailEnv (by decide) (by decide) (by decide)
      (by decide)).2 (by decide)⟩

/-- A v1 request generating only a controller. -/
def apiV1CtrlOnly : API :=
  ⟨fooRes, ⟨"1", false, []⟩, false, true, false⟩

/-- C5 counterexample: a v1 `Scaffold()` run that completes without
error and whose trace does not end in an entry-point update event (the
v1 strategy never invokes the entry-point In-place Updater), refuting
the claim for "every" invocation. -/
theorem main_update_last_counterexample :
    (scaffold apiV1CtrlOnly allOkEnv).err = none ∧
    ∀ wr wc : Bool,
      (scaffold apiV1CtrlOnly allOkEnv).events.getLast? ≠
        some (Event.mainUpdate wr wc) := by
  refine ⟨by decide, ?_⟩
  intro wr wc
  cases wr <;> cases wc <;> decide

/-- C5 amended: every v2 `Scaffold()` run that does not abort with an
error invokes the entry-point In-place Updater as its last step,
passing WireResource = DoResource and WireController = DoController
(regardless of which phases ran); the v1 strategy never invokes it. -/
theorem main_update_last_v2 (a : API) (env : Env)
    (hv : a.config.version = "2")
    (hok : (scaffold a env).err = none) :
    (scaffold a env).events.getLast? =
      some (Event.mainUpdate a.doResource a.doController) := by
  have hs : scaffold a env = scaffoldV2 a env := by
    simp [scaffold, Config.isV1, Config.isV2, hv]
  rw [hs] at hok ⊢
  unfold scaffoldV2 at hok ⊢
  cases h1 : (resourcePhaseV2 a env).err
  · cases h2 : (controllerPhaseV2 (resourcePhaseV2 a env).api env).err
    · cases hm : env.mainUpdateOk
      · simp [h1, h2, hm] at hok
      · simp only [h1, h2, hm]
        simp [← List.append_assoc, List.getLast?_concat]
    · simp [h1, h2] at hok
  · simp [h1] at hok

/-- A v2 request generating neither resource nor controller files. -/
def apiV2None : API :=
  ⟨fooRes, ⟨"2", false, []⟩, false, false, false⟩

/-- Witness for the amended C5: a successful v2 run with both phases
skipped still ends in the entry-point update wiring (false, false). -/
theorem main_update_last_v2_witness :
    (scaffold apiV2None allOkEnv).events.getLast? =
      some (Event.mainUpdate apiV2None.doResource apiV2None.doController) :=
  main_update_last_v2 apiV2None allOkEnv (by decide) (by decide)

/-- The API state after a v1 run is the state left by its resource
phase (the controller phase never changes it). -/
lemma scaffoldV1_api (a : API) (env : Env) :
    (scaffoldV1 a env).api = (resourcePhaseV1 a env).api := by
  unfold scaffoldV1
  cases h1 : (resourcePhaseV1 a env).err
  · simp [h1, controllerPhaseV1_api]
  · simp [h1]

/-- C6: when resource generation is skipped, both strategies clear the
descriptor's CreateExampleReconcileBody flag before any controller
generation: the final descriptor has the flag false and every resource
descriptor passed to any executed task list has the flag false. -/
theorem cycle_guard_clears_example_body (a : API) (env : Env)
    (h : a.doResource = false) :
    ((scaffoldV1 a env).api.resource.createExampleReconcileBody = false ∧
     ∀ fs, Event.execute fs ∈ (scaffoldV1 a env).events →
       ∀ f ∈ fs, ∀ r : Resource, f.res = some r →
         r.createExampleReconcileBody = false) ∧
    ((scaffoldV2 a env).api.resource.createExampleReconcileBody = false ∧
     ∀ fs, Event.execute fs ∈ (scaffoldV2 a env).events →
       ∀ f ∈ fs, ∀ r : Resource, f.res = some r →
         r.createExampleReconcileBody = false) := by
  constructor
  · cases hc : a.doController <;>
      cases h3 : env.buildUniverseV1Ctrl <;>
        cases h4 : env.executeV1Ctrl <;>
          simp [scaffoldV1, resourcePhaseV1, controllerPhaseV1, h, hc, h3, h4,
            v1ControllerFiles]
  · cases hc : a.doController <;>
      cases h5 : env.buildUniverseV2Ctrl <;>
        cases h6 : env.executeV2Ctrl <;>
          cases h7 : env.suiteUpdateOk <;>
            cases hm : env.mainUpdateOk <;>
              simp [scaffoldV2, resourcePhaseV2, controllerPhaseV2, h, hc, h5,
                h6, h7, hm, v2ControllerFiles]

/-- A controller-only request (resource generation skipped). -/
def apiCtrlOnlyC6 : API :=
  ⟨fooRes, ⟨"2", false, []⟩, false, true, false⟩

/-- Witness for C6 at a controller-only request in a fully succeeding
environment. -/
theorem cycle_guard_clears_example_body_witness :
    ((scaffoldV1 apiCtrlOnlyC6 allOkEnv).api.resource.createExampleReconcileBody = false ∧
     ∀ fs, Event.execute fs ∈ (scaffoldV1 apiCtrlOnlyC6 allOkEnv).events →
       ∀ f ∈ fs, ∀ r : Resource, f.res = some r →
         r.createExampleReconcileBody = false) ∧
    ((scaffoldV2 apiCtrlOnlyC6 allOkEnv).api.resource.createExampleReconcileBody = false ∧
     ∀ fs, Event.execute fs ∈ (scaffoldV2 apiCtrlOnlyC6 allOkEnv).events →
       ∀ f ∈ fs, ∀ r : Resource, f.res = some r →
         r.createExampleReconcileBody = false) :=
  cycle_guard_clears_example_body apiCtrlOnlyC6 allOkEnv rfl

/-- C10: when resource generation is requested, neither strategy ever
writes to the resource descriptor: the descriptor after the run equals
the descriptor before it (in particular CreateExampleReconcileBody is
untouched), whether the run succeeds or aborts. -/
theorem doResource_descriptor_frame (a : API) (env : Env)
    (h : a.doResource = true) :
    (scaffoldV1 a env).api.resource = a.resource ∧
    (scaffoldV2 a env).api.resource = a.resource := by
  constructor
  · have h1 : (resourcePhaseV1 a env).api = a := by
      cases hb : env.buildUniverseV1Res <;>
        cases he : env.executeV1Res <;>
          simp [resourcePhaseV1, h, hb, he]
    rw [scaffoldV1_api, h1]
  · have h2 : (resourcePhaseV2 a env).api.resource = a.resource := by
      cases hv2 : validateResourceGroup a a.resource
      · simp only [resourcePhaseV2, h, hv2, if_true]
        split
        · rfl
        · simp [apiFilesPhase_api]
      · simp [resourcePhaseV2, h, hv2]
    rw [scaffoldV2_api, h2]

/-- Witness for C10 at a fresh v2 resource-and-controller request. -/
theorem doResource_descriptor_frame_witness :
    (scaffoldV1 apiTag2 allOkEnv).api.resource = apiTag2.resource ∧
    (scaffoldV2 apiTag2 allOkEnv).api.resource = apiTag2.resource :=
  doResource_descriptor_frame apiTag2 allOkEnv rfl

/-- Appending a non-empty string keeps the result non-empty (stated for
the boolean equality used by the join filter). -/
lemma append_beq_empty_eq_false (s t : String) (h : (t == "") = false) :
    (s ++ t == "") = false := by
  rw [beq_eq_false_iff_ne] at h ⊢
  intro hc
  apply h
  apply String.ext
  have hd := congrArg String.data hc
  simp [String.data_append] at hd
  simp [hd.2]

/-- Restatement of the spec sentence for the v2 resource types path:
single-group `api/<version>/<kind-lower>_types.go`, multi-group
`apis/<group>/<version>/<kind-lower>_types.go`. -/
def specTypesPathV2 (mg : Bool) (r : Resource) : String :=
  if mg then
    "apis/" ++ r.group ++ "/" ++ r.version ++ "/" ++ goToLower r.kind ++
      "_types.go"
  else "api/" ++ r.version ++ "/" ++ goToLower r.kind ++ "_types.go"

/-- Restatement of the spec sentence for the v2 controller path:
single-group `controllers/<kind-lower>_controller.go`, multi-group
`controllers/<group>/<kind-lower>_controller.go`. -/
def specControllerPathV2 (mg : Bool) (r : Resource) : String :=
  if mg then
    "controllers/" ++ r.group ++ "/" ++ goToLower r.kind ++ "_controller.go"
  else "controllers/" ++ goToLower r.kind ++ "_controller.go"

/-- C7: for non-empty group and version identifiers the v2 paths
computed by `scaffoldV2` coincide with the spec formulas, in both
layout modes; being pure functions of (Group, Version, Kind,
MultiGroup), the derived paths are identical on every run. -/
theorem v2_paths_match_spec (mg : Bool) (r : Resource)
    (hg : r.group ≠ "") (hv : r.version ≠ "") :
    typesPathV2 mg r = specTypesPathV2 mg r ∧
    controllerPathV2 mg r = specControllerPathV2 mg r := by
  have hg' : (r.group == "") = false := by
    rw [beq_eq_false_iff_ne]; exact hg
  have hv' : (r.version == "") = false := by
    rw [beq_eq_false_iff_ne]; exact hv
  have ht : (goToLower r.kind ++ "_types.go" == "") = false :=
    append_beq_empty_eq_false (goToLower r.kind) "_types.go" (by decide)
  have hc : (goToLower r.kind ++ "_controller.go" == "") = false :=
    append_beq_empty_eq_false (goToLower r.kind) "_controller.go" (by decide)
  have hgc : (r.group ++ ("/" ++ (goToLower r.kind ++ "_controller.go")) == "")
      = false :=
    append_beq_empty_eq_false r.group ("/" ++ (goToLower r.kind ++ "_controller.go"))
      (append_beq_empty_eq_false "/" (goToLower r.kind ++ "_controller.go") hc)
  cases mg <;>
    simp [typesPathV2, specTypesPathV2, controllerPathV2,
      specControllerPathV2, goJoinNE, goJoin, List.filter, hg', hv', ht, hc,
      hgc, String.append_assoc]

/-- Witness for C7 at (Group "apps", Version "v1", Kind "Foo") in both
layout modes. -/
theorem v2_paths_match_spec_witness :
    (typesPathV2 false fooRes = specTypesPathV2 false fooRes ∧
      controllerPathV2 false fooRes = specControllerPathV2 false fooRes) ∧
    (typesPathV2 true fooRes = specTypesPathV2 true fooRes ∧
      controllerPathV2 true fooRes = specControllerPathV2 true fooRes) ∧
    typesPathV2 false fooRes = "api/v1/foo_types.go" ∧
    typesPathV2 true fooRes = "apis/apps/v1/foo_types.go" ∧
    controllerPathV2 false fooRes = "controllers/foo_controller.go" ∧
    controllerPathV2 true fooRes = "controllers/apps/foo_controller.go" :=
  ⟨v2_paths_match_spec false fooRes (by decide) (by decide),
   v2_paths_match_spec true fooRes (by decide) (by decide),
   by decide, by decide, by decide, by decide⟩
